import Mathlib

/-!
# Verification of the WhatsApp webhook analytics service

Shallow embedding of the message-ingestion pipeline
(`src/services/whatsapp.service.ts`), the transaction wrapper
(`DatabaseService.transaction`), the conversation digest and segmentation
response parsing (`src/services/llm.service.ts`), and the manual
segmentation HTTP handler (`WebhookController.segmentCustomer`).

Conventions of the embedding:
* Wall-clock instants are milliseconds since the epoch, as `Int`
  (JavaScript `Date.getTime()` / `Date.now()`).  Webhook payload
  timestamps are in seconds (the code multiplies by 1000).
* `NOW()` / `Date.now()` is passed explicitly as a `now : Int` parameter.
* The three Postgres tables are lists of rows in insertion order; the
  `SERIAL` primary keys are modelled by explicit `next…Id` counters
  starting at 1.
* A database transaction is all-or-nothing: the transaction body is a
  pure state transformer returning `Except`; on `error` the caller keeps
  the pre-transaction state (ROLLBACK) and reports failure.
-/

namespace Waha

/-- A WAHA `message` webhook payload, restricted to the fields the service
reads (`id`, `timestamp` in seconds, `from`, `fromMe`, `to`, `body`,
`caption`, `replyTo`, `_data.notifyName`).  Optional/absent JSON fields
are `Option`; the JS falsy-collapse of `""` via `||` is applied at use
sites. -/
structure WahaMessagePayload where
  id : String
  timestamp : Int
  /-- the `from` field (`from` is a Lean keyword, hence the underscore) -/
  from_ : String
  fromMe : Bool
  /-- the `to` field (`to` is a Lean keyword, hence the underscore) -/
  to_ : Option String
  body : Option String
  caption : Option String
  replyTo : Option String
  notifyName : Option String
  deriving Repr, DecidableEq

/-- Row of the `customers` table (bookkeeping columns `created_at` /
`updated_at`, which nothing in the service reads, are omitted). -/
structure Customer where
  id : Nat
  phone_number : String
  name : Option String
  first_message_at : Int
  last_message_at : Int
  total_messages : Nat
  segment : Option String
  segment_updated_at : Option Int
  deriving Repr, DecidableEq

/-- Row of the `chat_sessions` table. -/
structure ChatSession where
  id : Nat
  customer_id : Nat
  session_start : Int
  session_end : Option Int
  message_count : Nat
  is_active : Bool
  deriving Repr, DecidableEq

/-- Row of the `messages` table.  `updated_at` is kept because
`handleMessageStatus` writes it (`SET status = $1, updated_at = NOW()`);
at insertion it defaults to `NOW()`, i.e. processing time. -/
structure Message where
  id : Nat
  customer_id : Nat
  session_id : Nat
  waha_message_id : String
  chat_id : String
  from_number : String
  to_number : Option String
  message_body : Option String
  timestamp : Int
  is_from_me : Bool
  status : Option String
  reply_to : Option String
  updated_at : Int
  deriving Repr, DecidableEq

/-- The persistent store: the three tables plus the `SERIAL` counters. -/
structure DbState where
  customers : List Customer
  sessions : List ChatSession
  messages : List Message
  nextCustomerId : Nat
  nextSessionId : Nat
  nextMessageId : Nat
  deriving Repr, DecidableEq

/-- Freshly initialised database (`init.sql`): empty tables, serials at 1. -/
def emptyDb : DbState :=
  { customers := [], sessions := [], messages := []
    nextCustomerId := 1, nextSessionId := 1, nextMessageId := 1 }

/-- JS `x || null` on an optional string: `undefined`, `null` and `""` all
collapse to `null`. -/
def jsOrNone : Option String → Option String
  | some s => if s = "" then none else some s
  | none => none

/-- `extractPhoneNumber`: `waId.replace(/@[cg]\.us$/, '')` — strip a
trailing `@c.us` or `@g.us` transport suffix. -/
def extractPhoneNumber (waId : String) : String :=
  if "@c.us".data.isSuffixOf waId.data || "@g.us".data.isSuffixOf waId.data then
    String.mk (waId.data.take (waId.data.length - 5))
  else waId

/-- `findOrCreateCustomer`: look up by normalized phone number; if absent,
insert a row with first/last message time set to the event timestamp
(`payload.timestamp * 1000`) and `total_messages` seeded to 1, name from
`payload._data?.notifyName || null`. -/
def findOrCreateCustomer (p : WahaMessagePayload) (phoneNumber : String)
    (s : DbState) : Customer × DbState :=
  match s.customers.find? (fun c => c.phone_number == phoneNumber) with
  | some c => (c, s)
  | none =>
    let ts := p.timestamp * 1000
    let c : Customer :=
      { id := s.nextCustomerId, phone_number := phoneNumber
        name := jsOrNone p.notifyName
        first_message_at := ts, last_message_at := ts
        total_messages := 1, segment := none, segment_updated_at := none }
    (c, { s with customers := s.customers ++ [c]
                 nextCustomerId := s.nextCustomerId + 1 })

/-- `ORDER BY session_start DESC LIMIT 1` over a list of candidate rows:
keep the row with the greatest `session_start` (first such row on ties). -/
def pickLatestSession (l : List ChatSession) : Option ChatSession :=
  l.foldl (fun acc r =>
    match acc with
    | none => some r
    | some a => if a.session_start < r.session_start then some r else some a) none

/-- The row transformer of `UPDATE chat_sessions SET is_active = false,
session_end = NOW() WHERE customer_id = $1 AND is_active = true`. -/
def deactivateFor (now : Int) (customerId : Nat) (r : ChatSession) : ChatSession :=
  if r.customer_id == customerId && r.is_active then
    { r with is_active := false, session_end := some now }
  else r

/-- The row inserted by `INSERT INTO chat_sessions (customer_id,
session_start, message_count, is_active) VALUES ($1, NOW(), 0, true)`. -/
def newSessionRow (now : Int) (customerId nextId : Nat) : ChatSession :=
  { id := nextId, customer_id := customerId
    session_start := now, session_end := none
    message_count := 0, is_active := true }

/-- `findOrCreateChatSession`: reuse an active session of this customer
whose `session_start > NOW() - INTERVAL '30 minutes'`; otherwise mark every
active session of the customer inactive with `session_end = NOW()` and
insert a fresh active session starting at `NOW()` with `message_count` 0. -/
def findOrCreateChatSession (now : Int) (customerId : Nat)
    (s : DbState) : ChatSession × DbState :=
  match pickLatestSession (s.sessions.filter (fun r =>
    r.customer_id == customerId && r.is_active &&
      decide (now - 30 * 60 * 1000 < r.session_start))) with
  | some sess => (sess, s)
  | none =>
    let sess := newSessionRow now customerId s.nextSessionId
    (sess, { s with sessions := s.sessions.map (deactivateFor now customerId) ++ [sess]
                    nextSessionId := s.nextSessionId + 1 })

/-- `saveMessage`: insert the message row.  `waha_message_id` carries a
UNIQUE constraint (`init.sql`), so inserting an already-present external id
fails the statement (which the transaction wrapper turns into a rollback).
Body is `payload.body || payload.caption || null`, recipient is
`payload.to ? extractPhoneNumber(payload.to) : null`, the stored timestamp
is event time (`payload.timestamp * 1000`). -/
def saveMessage (now : Int) (customerId sessionId : Nat)
    (p : WahaMessagePayload) (s : DbState) : Except String (Message × DbState) :=
  if s.messages.any (fun m => m.waha_message_id == p.id) then
    Except.error "duplicate key value violates unique constraint on waha_message_id"
  else
    let m : Message :=
      { id := s.nextMessageId, customer_id := customerId, session_id := sessionId
        waha_message_id := p.id, chat_id := p.from_
        from_number := extractPhoneNumber p.from_
        to_number := match p.to_ with
          | some t => if t = "" then none else some (extractPhoneNumber t)
          | none => none
        message_body := match jsOrNone p.body with
          | some b => some b
          | none => jsOrNone p.caption
        timestamp := p.timestamp * 1000, is_from_me := p.fromMe
        status := none, reply_to := jsOrNone p.replyTo, updated_at := now }
    Except.ok (m, { s with messages := s.messages ++ [m]
                           nextMessageId := s.nextMessageId + 1 })

/-- `updateCustomerStats`: `total_messages = total_messages + 1`,
`last_message_at = NOW()` on the given customer row. -/
def updateCustomerStats (now : Int) (customerId : Nat) (s : DbState) : DbState :=
  { s with customers := s.customers.map (fun c =>
      if c.id == customerId then
        { c with total_messages := c.total_messages + 1, last_message_at := now }
      else c) }

/-- `updateSessionStats`: `message_count = message_count + 1` on the given
session row. -/
def updateSessionStats (sessionId : Nat) (s : DbState) : DbState :=
  { s with sessions := s.sessions.map (fun r =>
      if r.id == sessionId then { r with message_count := r.message_count + 1 }
      else r) }

/-- The transaction body of `handleIncomingMessage` (the callback passed to
`databaseService.transaction`): extract-and-validate the phone number
(an implausibly short number commits an empty transaction), then
find-or-create customer and session, insert the message, and bump both
counters.  A failing insert surfaces as `Except.error`. -/
def ingestTx (now : Int) (p : WahaMessagePayload) (s : DbState) :
    Except String DbState :=
  if (extractPhoneNumber p.from_).length < 10 then Except.ok s
  else
    match findOrCreateCustomer p (extractPhoneNumber p.from_) s with
    | (customer, s1) =>
      match findOrCreateChatSession now customer.id s1 with
      | (session, s2) =>
        match saveMessage now customer.id session.id p s2 with
        | Except.error e => Except.error e
        | Except.ok (_, s3) =>
          Except.ok (updateSessionStats session.id (updateCustomerStats now customer.id s3))

/-- `handleIncomingMessage` composed with `DatabaseService.transaction`:
self-sent echoes (`payload.fromMe`) return before any database work; the
transaction body commits on success and is rolled back wholesale on error
(the service then rethrows, reported here as the `false` flag). -/
def handleIncomingMessage (now : Int) (p : WahaMessagePayload)
    (s : DbState) : DbState × Bool :=
  if p.fromMe then (s, true)
  else
    match ingestTx now p s with
    | Except.ok s2 => (s2, true)
    | Except.error _ => (s, false)

/-- `handleMessageStatus`: `UPDATE messages SET status = $1, updated_at =
NOW() WHERE waha_message_id = $2`; returns the updated state together with
the statement's row count (0 matches is only a warning, never an error). -/
def handleMessageStatus (now : Int) (msgId newStatus : String)
    (s : DbState) : DbState × Nat :=
  let updated := s.messages.map (fun m =>
    if m.waha_message_id == msgId then
      { m with status := some newStatus, updated_at := now }
    else m)
  ({ s with messages := updated },
   (s.messages.filter (fun m => m.waha_message_id == msgId)).length)

/-! ## Helper lemmas about the ingestion pipeline -/

theorem findOrCreateCustomer_messages (p : WahaMessagePayload) (phone : String)
    (s : DbState) : ((findOrCreateCustomer p phone s).2).messages = s.messages := by
  unfold findOrCreateCustomer
  cases s.customers.find? (fun c => c.phone_number == phone) <;> rfl

theorem findOrCreateCustomer_sessions (p : WahaMessagePayload) (phone : String)
    (s : DbState) : ((findOrCreateCustomer p phone s).2).sessions = s.sessions := by
  unfold findOrCreateCustomer
  cases s.customers.find? (fun c => c.phone_number == phone) <;> rfl

theorem findOrCreateChatSession_messages (now : Int) (cid : Nat) (s : DbState) :
    ((findOrCreateChatSession now cid s).2).messages = s.messages := by
  unfold findOrCreateChatSession
  cases pickLatestSession (s.sessions.filter (fun r =>
    r.customer_id == cid && r.is_active &&
      decide (now - 30 * 60 * 1000 < r.session_start))) <;> rfl

theorem saveMessage_error_of_dup (now : Int) (cid sid : Nat)
    (p : WahaMessagePayload) (s : DbState)
    (h : ∃ m ∈ s.messages, m.waha_message_id = p.id) :
    saveMessage now cid sid p s =
      Except.error "duplicate key value violates unique constraint on waha_message_id" := by
  unfold saveMessage
  rw [if_pos]
  rw [List.any_eq_true]
  obtain ⟨m, hm, he⟩ := h
  exact ⟨m, hm, by simpa using he⟩

/-- Payload of the first message from a previously-unseen number, used in
the concrete ingestion runs below. -/
def pFresh : WahaMessagePayload :=
  { id := "wamid-001", timestamp := 1700000000, from_ := "6281234567890@c.us"
    fromMe := false, to_ := some "6280000000001@c.us", body := some "halo"
    caption := none, replyTo := none, notifyName := some "Budi" }

/-- C1: for a valid inbound message event whose (valid, ≥10-digit) phone
number matches no existing Customer, `handleIncomingMessage` completes and
leaves exactly one Customer, one ChatSession and one Message row for that
phone number — but the Customer's `total_messages` is 2, not 1 as the
claim states: `findOrCreateCustomer` seeds the insert with
`total_messages = 1` and `updateCustomerStats` then increments it again
within the same run.  This theorem evaluates the code at the failing
input. -/
theorem C1_fresh_customer_ingestion_double_counts :
    (handleIncomingMessage 1700000050000 pFresh emptyDb).2 = true ∧
    ((handleIncomingMessage 1700000050000 pFresh emptyDb).1.customers.filter
      (fun c => c.phone_number == "6281234567890")).length = 1 ∧
    ((handleIncomingMessage 1700000050000 pFresh emptyDb).1.customers.map
      (fun c => (c.id, c.phone_number))) = [(1, "6281234567890")] ∧
    ((handleIncomingMessage 1700000050000 pFresh emptyDb).1.sessions.filter
      (fun r => r.customer_id == 1)).length = 1 ∧
    ((handleIncomingMessage 1700000050000 pFresh emptyDb).1.messages.filter
      (fun m => m.customer_id == 1)).length = 1 ∧
    ((handleIncomingMessage 1700000050000 pFresh emptyDb).1.customers.map
      (fun c => c.total_messages)) = [2] := by
  decide

/-- C2: re-delivering a message event whose external id already exists in
the `messages` table makes the insert inside the transaction fail on the
unique constraint, the whole transaction rolls back, and the database
state — customer `total_messages`, session `message_count`, everything —
is exactly the pre-delivery state, with the failure reported. -/
theorem C2_duplicate_delivery_is_a_full_rollback (now : Int)
    (p : WahaMessagePayload) (s : DbState) (hMe : p.fromMe = false)
    (hLen : 10 ≤ (extractPhoneNumber p.from_).length)
    (hDup : ∃ m ∈ s.messages, m.waha_message_id = p.id) :
    handleIncomingMessage now p s = (s, false) := by
  have hcm := findOrCreateCustomer_messages p (extractPhoneNumber p.from_) s
  have hsm := findOrCreateChatSession_messages now
    (findOrCreateCustomer p (extractPhoneNumber p.from_) s).1.id
    (findOrCreateCustomer p (extractPhoneNumber p.from_) s).2
  have hdup2 : ∃ m ∈ ((findOrCreateChatSession now
      (findOrCreateCustomer p (extractPhoneNumber p.from_) s).1.id
      (findOrCreateCustomer p (extractPhoneNumber p.from_) s).2).2).messages,
      m.waha_message_id = p.id := by
    rw [hsm, hcm]; exact hDup
  have herr := saveMessage_error_of_dup now
    (findOrCreateCustomer p (extractPhoneNumber p.from_) s).1.id
    (findOrCreateChatSession now
      (findOrCreateCustomer p (extractPhoneNumber p.from_) s).1.id
      (findOrCreateCustomer p (extractPhoneNumber p.from_) s).2).1.id
    p _ hdup2
  unfold handleIncomingMessage
  rw [hMe]
  simp only [Bool.false_eq_true, if_false]
  unfold ingestTx
  rw [if_neg (by omega)]
  simp only [herr]

/-- Witness for C2: the second delivery of the same payload (same external
message id) leaves the one-customer/one-session/one-message state obtained
from the first delivery untouched and reports failure. -/
theorem C2_duplicate_delivery_witness :
    pFresh.fromMe = false ∧
    10 ≤ (extractPhoneNumber pFresh.from_).length ∧
    (∃ m ∈ (handleIncomingMessage 1700000050000 pFresh emptyDb).1.messages,
      m.waha_message_id = pFresh.id) ∧
    handleIncomingMessage 1700000100000 pFresh
        (handleIncomingMessage 1700000050000 pFresh emptyDb).1 =
      ((handleIncomingMessage 1700000050000 pFresh emptyDb).1, false) :=
  ⟨by decide, by decide, by decide,
   C2_duplicate_delivery_is_a_full_rollback 1700000100000 pFresh
     (handleIncomingMessage 1700000050000 pFresh emptyDb).1
     (by decide) (by decide) (by decide)⟩

/-- Payload constructor for the session-stitching scenarios: same sender
number each time, distinct external message ids. -/
def pSame (msgId : String) (eventTs : Int) : WahaMessagePayload :=
  { id := msgId, timestamp := eventTs, from_ := "6281234567890@c.us"
    fromMe := false, to_ := none, body := some "halo"
    caption := none, replyTo := none, notifyName := none }

/-- C3 counterexample: three messages from the same number processed at
t = 0, t = 25 min and t = 50 min.  The second and third messages are
processed 25 minutes apart — under 30 minutes — yet their Message rows
carry different ChatSession ids (1 and 2), because the code reuses a
session only while the session's *start* is within the last 30 minutes,
not while the last activity is.  This refutes the claim as stated. -/
theorem C3_under_30_minutes_apart_but_different_sessions :
    (1500000 : Int) < 30 * 60 * 1000 ∧
    ((handleIncomingMessage 3000000 (pSame "wamid-c" 3000)
        (handleIncomingMessage 1500000 (pSame "wamid-b" 1500)
          (handleIncomingMessage 0 (pSame "wamid-a" 0) emptyDb).1).1).1.messages.map
      (fun m => (m.waha_message_id, m.session_id))) =
      [("wamid-a", 1), ("wamid-b", 1), ("wamid-c", 2)] := by
  decide

/-- The database state after ingesting the first message of `pSame`
(`"wamid-a"`, event time 0) into an empty database at processing time
`t1`, computed by unfolding the pipeline (verified by `rfl` below). -/
def stateAfterFirst (t1 : Int) : DbState :=
  { customers := [{ id := 1, phone_number := "6281234567890", name := none
                    first_message_at := 0, last_message_at := t1
                    total_messages := 2, segment := none, segment_updated_at := none }]
    sessions := [{ id := 1, customer_id := 1, session_start := t1
                   session_end := none, message_count := 1, is_active := true }]
    messages := [{ id := 1, customer_id := 1, session_id := 1
                   waha_message_id := "wamid-a", chat_id := "6281234567890@c.us"
                   from_number := "6281234567890", to_number := none
                   message_body := some "halo", timestamp := 0, is_from_me := false
                   status := none, reply_to := none, updated_at := t1 }]
    nextCustomerId := 2, nextSessionId := 2, nextMessageId := 2 }

theorem stateAfterFirst_eq (t1 : Int) :
    handleIncomingMessage t1 (pSame "wamid-a" 0) emptyDb = (stateAfterFirst t1, true) := rfl

/-- Customer row of `stateAfterFirst`. -/
def custRowAfterFirst (t1 : Int) : Customer :=
  { id := 1, phone_number := "6281234567890", name := none
    first_message_at := 0, last_message_at := t1
    total_messages := 2, segment := none, segment_updated_at := none }

/-- Session row of `stateAfterFirst`. -/
def sessRowAfterFirst (t1 : Int) : ChatSession :=
  { id := 1, customer_id := 1, session_start := t1
    session_end := none, message_count := 1, is_active := true }

/-- Fresh session opened for the second message when the first session is
out of the 30-minute window. -/
def sessRowSecond (t2 : Int) : ChatSession :=
  { id := 2, customer_id := 1, session_start := t2
    session_end := none, message_count := 0, is_active := true }

/-- `stateAfterFirst` after the session-closing branch of
`findOrCreateChatSession` at processing time `t2`. -/
def stateFirstClosed (t1 t2 : Int) : DbState :=
  { customers := (stateAfterFirst t1).customers
    sessions := [{ id := 1, customer_id := 1, session_start := t1
                   session_end := some t2, message_count := 1, is_active := false },
                 sessRowSecond t2]
    messages := (stateAfterFirst t1).messages
    nextCustomerId := 2, nextSessionId := 3, nextMessageId := 2 }

theorem secondMessage_reuses_session (t1 t2 : Int) (h : t2 - 30 * 60 * 1000 < t1) :
    findOrCreateChatSession t2 1 (stateAfterFirst t1) =
      (sessRowAfterFirst t1, stateAfterFirst t1) := by
  have hfil : (stateAfterFirst t1).sessions.filter (fun r =>
      r.customer_id == 1 && r.is_active &&
        decide (t2 - 30 * 60 * 1000 < r.session_start)) = [sessRowAfterFirst t1] := by
    simp only [stateAfterFirst, sessRowAfterFirst, List.filter]
    norm_num
    rw [decide_eq_true (show t2 - 1800000 < t1 by omega)]
  unfold findOrCreateChatSession
  rw [hfil]
  rfl

theorem secondMessage_opens_session (t1 t2 : Int) (h : ¬ (t2 - 30 * 60 * 1000 < t1)) :
    findOrCreateChatSession t2 1 (stateAfterFirst t1) =
      (sessRowSecond t2, stateFirstClosed t1 t2) := by
  have hfil : (stateAfterFirst t1).sessions.filter (fun r =>
      r.customer_id == 1 && r.is_active &&
        decide (t2 - 30 * 60 * 1000 < r.session_start)) = [] := by
    simp only [stateAfterFirst, List.filter]
    norm_num
    rw [decide_eq_false (show ¬ (t2 - 1800000 < t1) by omega)]
  unfold findOrCreateChatSession
  rw [hfil]
  rfl

/-- State after both messages when the second reuses the first session. -/
def stateBothSame (t1 t2 : Int) : DbState :=
  { customers := [{ id := 1, phone_number := "6281234567890", name := none
                    first_message_at := 0, last_message_at := t2
                    total_messages := 3, segment := none, segment_updated_at := none }]
    sessions := [{ id := 1, customer_id := 1, session_start := t1
                   session_end := none, message_count := 2, is_active := true }]
    messages := [{ id := 1, customer_id := 1, session_id := 1
                   waha_message_id := "wamid-a", chat_id := "6281234567890@c.us"
                   from_number := "6281234567890", to_number := none
                   message_body := some "halo", timestamp := 0, is_from_me := false
                   status := none, reply_to := none, updated_at := t1 },
                  { id := 2, customer_id := 1, session_id := 1
                    waha_message_id := "wamid-b", chat_id := "6281234567890@c.us"
                    from_number := "6281234567890", to_number := none
                    message_body := some "halo", timestamp := 1500000, is_from_me := false
                    status := none, reply_to := none, updated_at := t2 }]
    nextCustomerId := 2, nextSessionId := 2, nextMessageId := 3 }

/-- State after both messages when the second opens a fresh session. -/
def stateBothDiff (t1 t2 : Int) : DbState :=
  { customers := [{ id := 1, phone_number := "6281234567890", name := none
                    first_message_at := 0, last_message_at := t2
                    total_messages := 3, segment := none, segment_updated_at := none }]
    sessions := [{ id := 1, customer_id := 1, session_start := t1
                   session_end := some t2, message_count := 1, is_active := false },
                 { id := 2, customer_id := 1, session_start := t2
                   session_end := none, message_count := 1, is_active := true }]
    messages := [{ id := 1, customer_id := 1, session_id := 1
                   waha_message_id := "wamid-a", chat_id := "6281234567890@c.us"
                   from_number := "6281234567890", to_number := none
                   message_body := some "halo", timestamp := 0, is_from_me := false
                   status := none, reply_to := none, updated_at := t1 },
                  { id := 2, customer_id := 1, session_id := 2
                    waha_message_id := "wamid-b", chat_id := "6281234567890@c.us"
                    from_number := "6281234567890", to_number := none
                    message_body := some "halo", timestamp := 1500000, is_from_me := false
                    status := none, reply_to := none, updated_at := t2 }]
    nextCustomerId := 2, nextSessionId := 3, nextMessageId := 3 }

theorem secondMessage_run_same (t1 t2 : Int) (h : t2 - t1 < 30 * 60 * 1000) :
    handleIncomingMessage t2 (pSame "wamid-b" 1500) (stateAfterFirst t1) =
      (stateBothSame t1 t2, true) := by
  have e1 : ingestTx t2 (pSame "wamid-b" 1500) (stateAfterFirst t1) =
      Except.ok (stateBothSame t1 t2) := by
    unfold ingestTx
    rw [if_neg (by decide)]
    rw [show findOrCreateCustomer (pSame "wamid-b" 1500)
        (extractPhoneNumber (pSame "wamid-b" 1500).from_) (stateAfterFirst t1) =
        (custRowAfterFirst t1, stateAfterFirst t1) from rfl]
    dsimp only [custRowAfterFirst]
    rw [secondMessage_reuses_session t1 t2 (by omega)]
    dsimp only [sessRowAfterFirst]
    rfl
  unfold handleIncomingMessage
  rw [if_neg (by decide)]
  rw [e1]

theorem secondMessage_run_diff (t1 t2 : Int) (h : 30 * 60 * 1000 < t2 - t1) :
    handleIncomingMessage t2 (pSame "wamid-b" 1500) (stateAfterFirst t1) =
      (stateBothDiff t1 t2, true) := by
  have e1 : ingestTx t2 (pSame "wamid-b" 1500) (stateAfterFirst t1) =
      Except.ok (stateBothDiff t1 t2) := by
    unfold ingestTx
    rw [if_neg (by decide)]
    rw [show findOrCreateCustomer (pSame "wamid-b" 1500)
        (extractPhoneNumber (pSame "wamid-b" 1500).from_) (stateAfterFirst t1) =
        (custRowAfterFirst t1, stateAfterFirst t1) from rfl]
    dsimp only [custRowAfterFirst]
    rw [secondMessage_opens_session t1 t2 (by omega)]
    dsimp only [sessRowSecond]
    rfl
  unfold handleIncomingMessage
  rw [if_neg (by decide)]
  rw [e1]

/-- C3 (amended): the 30-minute window is measured from the *start* of the
active session, not from the previous message, so the claim holds as
stated only for a customer's first two messages.  For the first two
inbound messages from a previously-unseen number, processed at times `t1`
and `t2`: under 30 minutes apart both Message rows carry the same
ChatSession id; over 30 minutes apart they carry different ids and the
first session is marked `is_active = false` with `session_end` set to the
second message's processing time. -/
theorem C3_first_two_messages_session_stitching (t1 t2 : Int) :
    (t2 - t1 < 30 * 60 * 1000 →
      ((handleIncomingMessage t2 (pSame "wamid-b" 1500)
          (handleIncomingMessage t1 (pSame "wamid-a" 0) emptyDb).1).1.messages.map
        (fun m => m.session_id)) = [1, 1]) ∧
    (30 * 60 * 1000 < t2 - t1 →
      ((handleIncomingMessage t2 (pSame "wamid-b" 1500)
          (handleIncomingMessage t1 (pSame "wamid-a" 0) emptyDb).1).1.messages.map
        (fun m => m.session_id)) = [1, 2] ∧
      ((handleIncomingMessage t2 (pSame "wamid-b" 1500)
          (handleIncomingMessage t1 (pSame "wamid-a" 0) emptyDb).1).1.sessions.map
        (fun r => (r.id, r.is_active, r.session_end))) =
        [(1, false, some t2), (2, true, none)]) := by
  rw [stateAfterFirst_eq]
  constructor
  · intro h
    rw [secondMessage_run_same t1 t2 h]
    rfl
  · intro h
    rw [secondMessage_run_diff t1 t2 h]
    exact ⟨rfl, rfl⟩

/-- Witness for C3 (amended): at `t1 = 0`, `t2 = 10` minutes the two
messages share session 1; at `t1 = 0`, `t2 = 60` minutes they land in
sessions 1 and 2 and session 1 is closed at the second processing time. -/
theorem C3_first_two_messages_session_stitching_witness :
    ((600000 : Int) - 0 < 30 * 60 * 1000 ∧
      ((handleIncomingMessage 600000 (pSame "wamid-b" 1500)
          (handleIncomingMessage 0 (pSame "wamid-a" 0) emptyDb).1).1.messages.map
        (fun m => m.session_id)) = [1, 1]) ∧
    ((30 * 60 * 1000 : Int) < 3600000 - 0 ∧
      ((handleIncomingMessage 3600000 (pSame "wamid-b" 1500)
          (handleIncomingMessage 0 (pSame "wamid-a" 0) emptyDb).1).1.messages.map
        (fun m => m.session_id)) = [1, 2]) :=
  ⟨⟨by decide, (C3_first_two_messages_session_stitching 0 600000).1 (by decide)⟩,
   ⟨by decide, ((C3_first_two_messages_session_stitching 0 3600000).2 (by decide)).1⟩⟩

/-! ## C8: status updates -/

/-- A message row whose `updated_at` differs from the status update's
processing time, used to separate the status write from the bookkeeping
write. -/
def msgStale : Message :=
  { id := 1, customer_id := 1, session_id := 1
    waha_message_id := "wamid-x", chat_id := "6281234567890@c.us"
    from_number := "6281234567890", to_number := none
    message_body := some "halo", timestamp := 0, is_from_me := false
    status := none, reply_to := none, updated_at := 0 }

/-- A one-message database used by the status-update scenarios. -/
def dbWithMsgStale : DbState :=
  { customers := [], sessions := [], messages := [msgStale]
    nextCustomerId := 2, nextSessionId := 2, nextMessageId := 2 }

/-- C8 counterexample: when a matching row exists the code does not update
*only* the `status` field — `UPDATE messages SET status = $1, updated_at =
NOW()` also refreshes `updated_at`, so the resulting row differs from the
original row with just its status replaced. -/
theorem C8_status_update_not_only_status :
    (handleMessageStatus 5 "wamid-x" "read" dbWithMsgStale).1.messages ≠
      [{ msgStale with status := some "read" }] ∧
    (handleMessageStatus 5 "wamid-x" "read" dbWithMsgStale).1.messages =
      [{ msgStale with status := some "read", updated_at := 5 }] := by
  decide

/-- C8 (amended): a status-update event whose external id matches no
Message row completes without error and changes nothing (row count 0, a
warning is only logged); when rows match, only those rows change, and only
in their `status` (set to the new value) and `updated_at` (refreshed to
processing time) fields — customers and sessions are untouched. -/
theorem C8_status_update_behaviour (now : Int) (msgId newStatus : String)
    (s : DbState) :
    ((∀ m ∈ s.messages, m.waha_message_id ≠ msgId) →
      handleMessageStatus now msgId newStatus s = (s, 0)) ∧
    (∀ m ∈ (handleMessageStatus now msgId newStatus s).1.messages,
      m ∈ s.messages ∨
        ∃ m0 ∈ s.messages, m0.waha_message_id = msgId ∧
          m = { m0 with status := some newStatus, updated_at := now }) ∧
    (handleMessageStatus now msgId newStatus s).1.customers = s.customers ∧
    (handleMessageStatus now msgId newStatus s).1.sessions = s.sessions := by
  refine ⟨?_, ?_, rfl, rfl⟩
  · intro hnone
    unfold handleMessageStatus
    have hmap : s.messages.map (fun m =>
        if m.waha_message_id == msgId then
          { m with status := some newStatus, updated_at := now }
        else m) = s.messages := by
      conv_rhs => rw [← List.map_id s.messages]
      refine List.map_congr_left ?_
      intro m hm
      rw [if_neg (by simpa using hnone m hm)]
      rfl
    have hfil : s.messages.filter (fun m => m.waha_message_id == msgId) = [] := by
      rw [List.filter_eq_nil_iff]
      intro m hm
      simpa using hnone m hm
    rw [hmap, hfil]
    rfl
  · intro m hm
    unfold handleMessageStatus at hm
    simp only [List.mem_map] at hm
    obtain ⟨m0, hm0, hfm⟩ := hm
    by_cases hq : m0.waha_message_id = msgId
    · right
      refine ⟨m0, hm0, hq, ?_⟩
      rw [← hfm, if_pos (by simpa using hq)]
    · left
      rw [← hfm, if_neg (by simpa using hq)]
      exact hm0

/-- Witness for C8 (amended): a status update for an unknown external id
(`"other"`) on the one-message database is a no-op with row count 0. -/
theorem C8_status_update_behaviour_witness :
    (∀ m ∈ dbWithMsgStale.messages, m.waha_message_id ≠ "other") ∧
    handleMessageStatus 5 "other" "read" dbWithMsgStale = (dbWithMsgStale, 0) :=
  ⟨by decide, (C8_status_update_behaviour 5 "other" "read" dbWithMsgStale).1 (by decide)⟩

/-! ## C9: at most one active session per customer -/

/-- Number of active sessions a customer has in a state. -/
def activeCount (s : DbState) (cid : Nat) : Nat :=
  s.sessions.countP (fun r => r.customer_id == cid && r.is_active)

/-- The §3 invariant: at most one active session per customer. -/
def AtMostOneActive (s : DbState) : Prop :=
  ∀ cid : Nat, activeCount s cid ≤ 1

theorem findOrCreateChatSession_customers (now : Int) (cid : Nat) (s : DbState) :
    ((findOrCreateChatSession now cid s).2).customers = s.customers := by
  unfold findOrCreateChatSession
  cases pickLatestSession (s.sessions.filter (fun r =>
    r.customer_id == cid && r.is_active &&
      decide (now - 30 * 60 * 1000 < r.session_start))) <;> rfl

/-- `findOrCreateChatSession` preserves the one-active-session invariant:
either it reuses a session (no session row changes) or it deactivates
every active session of the customer before inserting the single new
active one. -/
theorem findOrCreateChatSession_active (now : Int) (cid : Nat) (s : DbState)
    (h : AtMostOneActive s) :
    AtMostOneActive (findOrCreateChatSession now cid s).2 := by
  unfold findOrCreateChatSession
  cases hp : pickLatestSession (s.sessions.filter (fun r =>
    r.customer_id == cid && r.is_active &&
      decide (now - 30 * 60 * 1000 < r.session_start))) with
  | some sess => exact h
  | none =>
    intro cid'
    show ((s.sessions.map (deactivateFor now cid)) ++
      [newSessionRow now cid s.nextSessionId]).countP
        (fun r => r.customer_id == cid' && r.is_active) ≤ 1
    rw [List.countP_append, List.countP_map]
    by_cases hc : cid' = cid
    · subst hc
      have hz : s.sessions.countP
          ((fun (r : ChatSession) => r.customer_id == cid' && r.is_active) ∘
            deactivateFor now cid') = 0 := by
        rw [List.countP_eq_zero]
        intro r _
        by_cases hr : (r.customer_id == cid' && r.is_active) = true
        · simp [Function.comp, deactivateFor, hr]
        · simp only [Function.comp, deactivateFor]
          rw [if_neg hr]
          exact hr
      rw [hz]
      simp [List.countP_cons, newSessionRow]
    · have he : s.sessions.countP
          ((fun (r : ChatSession) => r.customer_id == cid' && r.is_active) ∘
            deactivateFor now cid) =
          s.sessions.countP (fun r => r.customer_id == cid' && r.is_active) := by
        apply List.countP_congr
        intro r _
        by_cases hr : (r.customer_id == cid && r.is_active) = true
        · have hr2 := hr
          simp only [Bool.and_eq_true, beq_iff_eq] at hr2
          simp [Function.comp, deactivateFor, hr, hr2.1, hr2.2, Ne.symm hc]
        · simp only [Function.comp, deactivateFor]
          rw [if_neg hr]
      rw [he]
      have hone : ([newSessionRow now cid s.nextSessionId].countP
            (fun r => r.customer_id == cid' && r.is_active)) = 0 := by
        simp [List.countP_cons, newSessionRow, Ne.symm hc]
      rw [hone]
      simpa using h cid'

theorem updateCustomerStats_sessions (now : Int) (cid : Nat) (s : DbState) :
    (updateCustomerStats now cid s).sessions = s.sessions := rfl

theorem updateCustomerStats_messages (now : Int) (cid : Nat) (s : DbState) :
    (updateCustomerStats now cid s).messages = s.messages := rfl

theorem updateSessionStats_messages (sid : Nat) (s : DbState) :
    (updateSessionStats sid s).messages = s.messages := rfl

/-- Incrementing a session's `message_count` does not change which
sessions are active or whose they are. -/
theorem updateSessionStats_active (sid : Nat) (s : DbState)
    (h : AtMostOneActive s) : AtMostOneActive (updateSessionStats sid s) := by
  intro cid
  show (s.sessions.map (fun r =>
      if r.id == sid then { r with message_count := r.message_count + 1 }
      else r)).countP (fun r => r.customer_id == cid && r.is_active) ≤ 1
  rw [List.countP_map]
  have he : s.sessions.countP ((fun r => r.customer_id == cid && r.is_active) ∘
      (fun r => if r.id == sid then { r with message_count := r.message_count + 1 }
        else r)) = s.sessions.countP (fun r => r.customer_id == cid && r.is_active) := by
    apply List.countP_congr
    intro r _
    by_cases hr : (r.id == sid) = true
    · simp [Function.comp, hr]
    · simp [Function.comp, hr]
  rw [he]
  exact h cid

/-- `saveMessage` on success only appends the inserted row to `messages`;
the inserted row copies the payload's `fromMe` flag, and customers and
sessions are untouched. -/
theorem saveMessage_ok (now : Int) (cid sid : Nat) (p : WahaMessagePayload)
    (s : DbState) (msres : Message × DbState)
    (h : saveMessage now cid sid p s = Except.ok msres) :
    msres.2.messages = s.messages ++ [msres.1] ∧ msres.1.is_from_me = p.fromMe ∧
    msres.2.sessions = s.sessions ∧ msres.2.customers = s.customers := by
  unfold saveMessage at h
  split at h
  · cases h
  · injection h with h2
    subst h2
    exact ⟨rfl, rfl, rfl, rfl⟩

/-- A committed ingestion transaction preserves the one-active-session
invariant. -/
theorem ingestTx_active (now : Int) (p : WahaMessagePayload) (s s2 : DbState)
    (h : AtMostOneActive s) (heq : ingestTx now p s = Except.ok s2) :
    AtMostOneActive s2 := by
  unfold ingestTx at heq
  split at heq
  · cases heq
    exact h
  · split at heq
    next customer s1 hfc =>
      split at heq
      next session s2' hfs =>
        split at heq
        · cases heq
        next mres s3 hsm =>
          cases heq
          have h1 : AtMostOneActive s1 := by
            intro cid
            show activeCount s1 cid ≤ 1
            have : s1.sessions = s.sessions := by
              have := findOrCreateCustomer_sessions p (extractPhoneNumber p.from_) s
              rw [hfc] at this
              exact this
            unfold activeCount
            rw [this]
            exact h cid
          have h2 : AtMostOneActive s2' := by
            have := findOrCreateChatSession_active now customer.id s1 h1
            rw [hfs] at this
            exact this
          have h3 : AtMostOneActive s3 := by
            intro cid
            unfold activeCount
            rw [(saveMessage_ok now customer.id session.id p s2' (mres, s3) hsm).2.2.1]
            exact h2 cid
          have h4 : AtMostOneActive (updateCustomerStats now customer.id s3) := by
            intro cid
            unfold activeCount
            rw [updateCustomerStats_sessions]
            exact h3 cid
          exact updateSessionStats_active session.id _ h4

/-- C9: at most one ChatSession per customer is active in any reachable
state — the invariant holds in the initial (empty) database and is
preserved by every `handleIncomingMessage` step, because
`findOrCreateChatSession` deactivates all active sessions of the customer
before inserting a new active one, inside the same transaction (and a
rolled-back transaction leaves the state untouched). -/
theorem C9_at_most_one_active_session :
    AtMostOneActive emptyDb ∧
    ∀ (now : Int) (p : WahaMessagePayload) (s : DbState),
      AtMostOneActive s → AtMostOneActive (handleIncomingMessage now p s).1 := by
  constructor
  · intro cid
    show activeCount emptyDb cid ≤ 1
    simp [activeCount, emptyDb]
  · intro now p s h
    unfold handleIncomingMessage
    split
    · exact h
    · split
      next s2 heq => exact ingestTx_active now p s s2 h heq
      next e heq => exact h

/-- Witness for C9: the invariant, established on the empty database by
the theorem's own base case, is carried through a concrete ingestion. -/
theorem C9_at_most_one_active_session_witness :
    AtMostOneActive (handleIncomingMessage 1700000050000 pFresh emptyDb).1 :=
  C9_at_most_one_active_session.2 1700000050000 pFresh emptyDb
    C9_at_most_one_active_session.1

/-! ## C10: all ingested messages are customer-originated -/

/-- C10: every Message row present after `handleIncomingMessage` is either
a pre-existing row or has `is_from_me = false`: events with
`fromMe = true` return before any write, and the inserted row copies the
payload's (necessarily `false`) flag — so ingestion never adds a
business-originated message to the history. -/
theorem C10_ingested_messages_are_customer_originated (now : Int)
    (p : WahaMessagePayload) (s : DbState) (m : Message)
    (hm : m ∈ (handleIncomingMessage now p s).1.messages) :
    m ∈ s.messages ∨ m.is_from_me = false := by
  unfold handleIncomingMessage at hm
  by_cases hMe : p.fromMe = true
  · rw [if_pos hMe] at hm
    exact Or.inl hm
  · rw [if_neg hMe] at hm
    cases hx : ingestTx now p s with
    | error e => rw [hx] at hm; exact Or.inl hm
    | ok s2 =>
      rw [hx] at hm
      unfold ingestTx at hx
      split at hx
      · cases hx
        exact Or.inl hm
      · split at hx
        next customer s1 hfc =>
          split at hx
          next session s2' hfs =>
            split at hx
            · cases hx
            next mres s3 hsm =>
              cases hx
              have hmsg : s3.messages = s.messages ++ [mres] := by
                have hsv := (saveMessage_ok now customer.id session.id p s2' (mres, s3) hsm).1
                have e1 : s1.messages = s.messages := by
                  have := findOrCreateCustomer_messages p (extractPhoneNumber p.from_) s
                  rw [hfc] at this
                  exact this
                have e2 : s2'.messages = s.messages := by
                  have := findOrCreateChatSession_messages now customer.id s1
                  rw [hfs] at this
                  rw [this, e1]
                rw [hsv, e2]
              have hmm : m ∈ s.messages ++ [mres] := by
                rw [← hmsg]
                simpa [updateSessionStats, updateCustomerStats] using hm
              rcases List.mem_append.mp hmm with hin | hnew
              · exact Or.inl hin
              · right
                have : m = mres := by simpa using hnew
                rw [this,
                  (saveMessage_ok now customer.id session.id p s2' (mres, s3) hsm).2.1]
                exact Bool.not_eq_true p.fromMe ▸ hMe

/-- Witness for C10: the single row produced by a concrete ingestion from
the empty database (so not pre-existing) has `is_from_me = false`. -/
theorem C10_ingested_messages_are_customer_originated_witness :
    ((handleIncomingMessage 1700000050000 pFresh emptyDb).1.messages.head?.map
      (fun m => m.is_from_me)) = some false ∧
    ∀ m ∈ (handleIncomingMessage 1700000050000 pFresh emptyDb).1.messages,
      m ∈ emptyDb.messages ∨ m.is_from_me = false :=
  ⟨by decide, fun m hm =>
    C10_ingested_messages_are_customer_originated 1700000050000 pFresh emptyDb m hm⟩

/-! ## C6: the conversation digest (`getCustomerConversationHistory`) -/

/-- One row of the digest's recent-message query
(`SELECT message_body, timestamp, is_from_me FROM messages …`). -/
structure RecentMsg where
  messageBody : Option String
  timestamp : Int
  isFromMe : Bool
  deriving Repr, DecidableEq

/-- Insert into a list sorted by descending timestamp. -/
def insertDescByTime (m : RecentMsg) : List RecentMsg → List RecentMsg
  | [] => [m]
  | b :: l => if b.timestamp < m.timestamp then m :: b :: l else b :: insertDescByTime m l

/-- `ORDER BY timestamp DESC` (tie order is unspecified in SQL; this model
keeps scan order on ties). -/
def sortDescByTime : List RecentMsg → List RecentMsg
  | [] => []
  | a :: l => insertDescByTime a (sortDescByTime l)

/-- The object returned by `getCustomerConversationHistory`. -/
structure ConversationDigest where
  customerId : Nat
  phoneNumber : String
  name : Option String
  totalMessages : Nat
  firstMessageAt : Int
  lastMessageAt : Int
  totalSessions : Nat
  avgMessagesPerSession : ℚ
  daysAsCustomer : Int
  recentMessages : List RecentMsg
  deriving Repr, DecidableEq

/-- `AVG(message_count)` over a customer's sessions;
`parseFloat(null) || 0` turns the empty-aggregate NULL into 0. -/
def avgMessageCount (l : List ChatSession) : ℚ :=
  if l.length = 0 then 0
  else ((l.map (fun r => (r.message_count : ℚ))).sum) / (l.length : ℚ)

/-- `getCustomerConversationHistory`: fetch the customer row, the most
recent 100 non-null-body messages (newest first), session aggregates, and
derive `daysAsCustomer = Math.floor((Date.now() - first_message_at) /
86400000)` — i.e. from the *current processing time*, not the last
message.  The customer id arrives as a JS number (`Option ℚ`, `none`
standing for `NaN`): a non-integral value makes the very first query fail
(`invalid input syntax for type integer` from Postgres), an unknown id
raises the not-found service error.  The first component counts the
queries issued against storage. -/
def getCustomerConversationHistory (now : Int) (customerId : Option ℚ)
    (s : DbState) : Nat × Except String ConversationDigest :=
  match customerId with
  | none => (1, Except.error "invalid input syntax for type integer")
  | some q =>
    if q.den ≠ 1 then (1, Except.error "invalid input syntax for type integer")
    else
      match s.customers.find? (fun c => (c.id : Int) == q.num) with
      | none => (1, Except.error "Customer not found")
      | some c =>
        (3, Except.ok
          { customerId := c.id
            phoneNumber := c.phone_number
            name := c.name
            totalMessages := c.total_messages
            firstMessageAt := c.first_message_at
            lastMessageAt := c.last_message_at
            totalSessions := (s.sessions.filter (fun r => r.customer_id == c.id)).length
            avgMessagesPerSession :=
              avgMessageCount (s.sessions.filter (fun r => r.customer_id == c.id))
            daysAsCustomer := Int.fdiv (now - c.first_message_at) 86400000
            recentMessages :=
              ((sortDescByTime ((s.messages.filter (fun m =>
                m.customer_id == c.id && m.message_body.isSome)).map (fun m =>
                  { messageBody := m.message_body, timestamp := m.timestamp
                    isFromMe := m.is_from_me }))).take 100) })

/-- A customer whose first and last messages coincide (event time 0), seen
two days of wall-clock later. -/
def custIdle : Customer :=
  { id := 1, phone_number := "6281234567890", name := none
    first_message_at := 0, last_message_at := 0, total_messages := 5
    segment := none, segment_updated_at := none }

/-- Database containing only `custIdle`. -/
def dbIdle : DbState :=
  { customers := [custIdle], sessions := [], messages := []
    nextCustomerId := 2, nextSessionId := 1, nextMessageId := 1 }

/-- C6 counterexample: for a customer whose first and last message both
sit at event time 0, a digest computed two days later reports
`daysAsCustomer = 2`, while the whole-day span between first and last
message timestamps is 0 — the code measures from `Date.now()` (processing
time), not from the last message. -/
theorem C6_days_as_customer_differs_from_event_span :
    ((getCustomerConversationHistory 172800000 (some 1) dbIdle).2.toOption.map
      (fun d => d.daysAsCustomer)) = some 2 ∧
    ((getCustomerConversationHistory 172800000 (some 1) dbIdle).2.toOption.map
      (fun d => Int.fdiv (d.lastMessageAt - d.firstMessageAt) 86400000)) = some 0 := by
  decide

/-- C6 (amended): the days-as-customer value in the digest equals the
whole-day (floored) span between the customer's first message timestamp
(event time) and the *current processing time* at which the digest is
computed — not the last message timestamp. -/
theorem C6_days_as_customer_from_processing_time (now : Int) (q : ℚ)
    (s : DbState) (c : Customer) (hq : q.den = 1)
    (hc : s.customers.find? (fun c0 => (c0.id : Int) == q.num) = some c) :
    ((getCustomerConversationHistory now (some q) s).2.toOption.map
      (fun d => d.daysAsCustomer)) =
      some (Int.fdiv (now - c.first_message_at) 86400000) := by
  unfold getCustomerConversationHistory
  dsimp only
  rw [if_neg (by simp [hq]), hc]
  rfl

/-- Witness for C6 (amended): the two-day-later digest over `dbIdle`
reports `⌊(now - first_message_at) / 86400000⌋` days. -/
theorem C6_days_as_customer_from_processing_time_witness :
    (1 : ℚ).den = 1 ∧
    dbIdle.customers.find? (fun c0 => (c0.id : Int) == (1 : ℚ).num) = some custIdle ∧
    ((getCustomerConversationHistory 172800000 (some 1) dbIdle).2.toOption.map
      (fun d => d.daysAsCustomer)) =
      some (Int.fdiv (172800000 - custIdle.first_message_at) 86400000) :=
  ⟨by decide, by decide,
   C6_days_as_customer_from_processing_time 172800000 1 dbIdle custIdle
     (by decide) (by decide)⟩

/-! ## C5: average response latency -/

/-- Insert into a list sorted by ascending timestamp, before the first
element with an equal-or-later timestamp (stability). -/
def insertAscByTime (m : RecentMsg) : List RecentMsg → List RecentMsg
  | [] => [m]
  | b :: l => if m.timestamp ≤ b.timestamp then m :: b :: l else b :: insertAscByTime m l

/-- Stable ascending sort by timestamp — the JS
`messages.sort((a, b) => a.timestamp - b.timestamp)` (V8 sort is stable). -/
def sortAscByTime : List RecentMsg → List RecentMsg
  | [] => []
  | a :: l => insertAscByTime a (sortAscByTime l)

/-- The accumulation loop of `calculateAverageResponseTime`: over
consecutive pairs, when the current message is customer-originated and the
previous one business-originated, add the elapsed time and bump the pair
count.  Returns (total response time in ms, response count). -/
def responsePairsLoop : List RecentMsg → Int × Nat
  | [] => (0, 0)
  | [_] => (0, 0)
  | a :: b :: l =>
    let rest := responsePairsLoop (b :: l)
    if !b.isFromMe && a.isFromMe then
      (rest.1 + (b.timestamp - a.timestamp), rest.2 + 1)
    else rest

/-- `calculateAverageResponseTime`: fewer than 2 messages yields 0; sort
ascending by timestamp, accumulate customer-after-business consecutive
pairs, return total/count/1000 (seconds) or 0 when no pair qualifies. -/
def calculateAverageResponseTime (messages : List RecentMsg) : ℚ :=
  if messages.length < 2 then 0
  else
    let tr := responsePairsLoop (sortAscByTime messages)
    if 0 < tr.2 then ((tr.1 : ℚ) / (tr.2 : ℚ)) / 1000 else 0

/-- Modelled from the spec's words (§4.4), for comparison with the code's
`calculateAverageResponseTime`: the mean elapsed time between a
customer-originated message and the immediately preceding
business-originated message across consecutive message pairs in timestamp
order; pairs not ordered customer-after-business are excluded; fewer than
2 messages yields 0 (as does an empty set of qualifying pairs). -/
def specAverageResponseLatency (messages : List RecentMsg) : ℚ :=
  if messages.length < 2 then 0
  else
    let sorted := sortAscByTime messages
    let pairs := (sorted.zip sorted.tail).filter
      (fun ab => ab.1.isFromMe && !ab.2.isFromMe)
    let total : Int := (pairs.map (fun ab => ab.2.timestamp - ab.1.timestamp)).sum
    if pairs.length = 0 then 0
    else ((total : ℚ) / (pairs.length : ℚ)) / 1000

/-- The loop computes exactly the sum and count of the
customer-after-business consecutive pairs. -/
theorem responsePairsLoop_eq (l : List RecentMsg) :
    responsePairsLoop l =
      ((((l.zip l.tail).filter (fun ab => !ab.2.isFromMe && ab.1.isFromMe)).map
          (fun ab => ab.2.timestamp - ab.1.timestamp)).sum,
       ((l.zip l.tail).filter (fun ab => !ab.2.isFromMe && ab.1.isFromMe)).length) := by
  induction l with
  | nil => rfl
  | cons a l ih =>
    cases l with
    | nil => rfl
    | cons b m =>
      show responsePairsLoop (a :: b :: m) = _
      rw [responsePairsLoop]
      rw [ih]
      by_cases hab : (!b.isFromMe && a.isFromMe) = true
      · simp only [List.zip_cons_cons, List.tail_cons, List.filter_cons, hab, if_pos,
          List.map_cons, List.sum_cons]
        refine Prod.ext ?_ rfl
        simp only
        omega
      · simp [List.filter_cons, hab]

/-- The two pair-selection predicates (code order vs. spec order) agree. -/
theorem responsePairs_filter_comm (l : List RecentMsg) :
    (l.zip l.tail).filter (fun ab => !ab.2.isFromMe && ab.1.isFromMe) =
      (l.zip l.tail).filter (fun ab => ab.1.isFromMe && !ab.2.isFromMe) := by
  apply List.filter_congr
  intro ab _
  exact Bool.and_comm _ _

/-- C5: the code's average response time equals the spec's average
response latency on every message list; fewer than 2 messages yields 0;
and on the spec's example — business at `t0 = 0`, customer 30 s later,
business at `t1 = 200 s`, customer 90 s after that — the result is 60
seconds. -/
theorem C5_average_response_latency :
    (∀ messages : List RecentMsg,
      calculateAverageResponseTime messages = specAverageResponseLatency messages) ∧
    (∀ messages : List RecentMsg, messages.length < 2 →
      calculateAverageResponseTime messages = 0) ∧
    calculateAverageResponseTime
      [{ messageBody := some "b0", timestamp := 0, isFromMe := true },
       { messageBody := some "c0", timestamp := 30000, isFromMe := false },
       { messageBody := some "b1", timestamp := 200000, isFromMe := true },
       { messageBody := some "c1", timestamp := 290000, isFromMe := false }] = 60 := by
  refine ⟨?_, ?_, ?_⟩
  · intro messages
    unfold calculateAverageResponseTime specAverageResponseLatency
    by_cases hlen : messages.length < 2
    · rw [if_pos hlen, if_pos hlen]
    · rw [if_neg hlen, if_neg hlen]
      rw [responsePairsLoop_eq, responsePairs_filter_comm]
      dsimp only
      by_cases hz : (((sortAscByTime messages).zip (sortAscByTime messages).tail).filter
          (fun (ab : RecentMsg × RecentMsg) => ab.1.isFromMe && !ab.2.isFromMe)).length = 0
      · rw [if_neg (by omega), if_pos hz]
      · rw [if_pos (by omega), if_neg hz]
  · intro messages h
    unfold calculateAverageResponseTime
    rw [if_pos h]
  · norm_num [calculateAverageResponseTime, sortAscByTime, insertAscByTime,
      responsePairsLoop]

/-- Witness for C5: a single-message list yields 0. -/
theorem C5_average_response_latency_witness :
    ([{ messageBody := some "x", timestamp := 7, isFromMe := false : RecentMsg }].length < 2) ∧
    calculateAverageResponseTime
      [{ messageBody := some "x", timestamp := 7, isFromMe := false }] = 0 :=
  ⟨by decide, C5_average_response_latency.2.1
    [{ messageBody := some "x", timestamp := 7, isFromMe := false }] (by decide)⟩

/-! ## C4: segmentation response parsing (`llm.service.ts`) -/

inductive Json where
  | null
  | bool (b : Bool)
  | num (q : Rat)
  | str (s : String)
  | arr (elems : List Json)
  | obj (fields : List (String × Json))
  deriving Repr

def isJsonWs (c : Char) : Bool := c = ' ' || c = '\t' || c = '\n' || c = '\r'

def skipWs (cs : List Char) : List Char := cs.dropWhile isJsonWs

def hexVal (c : Char) : Option Nat :=
  if '0' ≤ c ∧ c ≤ '9' then some (c.toNat - '0'.toNat)
  else if 'a' ≤ c ∧ c ≤ 'f' then some (c.toNat - 'a'.toNat + 10)
  else if 'A' ≤ c ∧ c ≤ 'F' then some (c.toNat - 'A'.toNat + 10)
  else none

def parseJsonStringAux (acc : List Char) : List Char → Option (List Char × List Char)
  | [] => none
  | '\\' :: '"' :: r => parseJsonStringAux ('"' :: acc) r
  | '\\' :: '\\' :: r => parseJsonStringAux ('\\' :: acc) r
  | '\\' :: '/' :: r => parseJsonStringAux ('/' :: acc) r
  | '\\' :: 'b' :: r => parseJsonStringAux ('\x08' :: acc) r
  | '\\' :: 'f' :: r => parseJsonStringAux ('\x0C' :: acc) r
  | '\\' :: 'n' :: r => parseJsonStringAux ('\n' :: acc) r
  | '\\' :: 'r' :: r => parseJsonStringAux ('\r' :: acc) r
  | '\\' :: 't' :: r => parseJsonStringAux ('\t' :: acc) r
  | '\\' :: 'u' :: h1 :: h2 :: h3 :: h4 :: r =>
    match hexVal h1, hexVal h2, hexVal h3, hexVal h4 with
    | some a, some b, some c, some d =>
      parseJsonStringAux (Char.ofNat (((a * 16 + b) * 16 + c) * 16 + d) :: acc) r
    | _, _, _, _ => none
  | '\\' :: _ => none
  | '"' :: r => some (acc.reverse, r)
  | c :: r => if c.toNat < 32 then none else parseJsonStringAux (c :: acc) r

def isDigit (c : Char) : Bool := '0' ≤ c && c ≤ '9'

def natOfDigits (ds : List Char) : Nat := ds.foldl (fun n c => n * 10 + (c.toNat - '0'.toNat)) 0

def parseExpAfterE (cs : List Char) : Option (Int × List Char) :=
  match (match cs with
    | '+' :: r => (false, r)
    | '-' :: r => (true, r)
    | _ => (false, cs)) with
  | (eneg, r1) =>
    let ds := r1.takeWhile isDigit
    if ds.isEmpty then none
    else some ((if eneg then -(natOfDigits ds : Int) else (natOfDigits ds : Int)),
      r1.dropWhile isDigit)

def parseExponent (cs : List Char) : Option (Int × List Char) :=
  match cs with
  | 'e' :: r => parseExpAfterE r
  | 'E' :: r => parseExpAfterE r
  | _ => some (0, cs)

def applyExp (m : Rat) (e : Int) : Rat :=
  if 0 ≤ e then m * (10 : Rat) ^ e.toNat else m / (10 : Rat) ^ (-e).toNat

def finishNumber (neg : Bool) (intDs fracDs : List Char) (rest : List Char) :
    Option (Rat × List Char) :=
  match parseExponent rest with
  | none => none
  | some (e, rest2) =>
    let mantissa : Rat :=
      (natOfDigits intDs : Rat) + (natOfDigits fracDs : Rat) / (10 : Rat) ^ fracDs.length
    some (applyExp (if neg then -mantissa else mantissa) e, rest2)

def parseJsonNumber (cs : List Char) : Option (Rat × List Char) :=
  match (match cs with | '-' :: r => (true, r) | _ => (false, cs)) with
  | (neg, cs1) =>
    let intDigits := cs1.takeWhile isDigit
    let cs2 := cs1.dropWhile isDigit
    if intDigits.isEmpty then none
    else if 1 < intDigits.length ∧ intDigits.head? = some '0' then none
    else
      match cs2 with
      | '.' :: r =>
        let fds := r.takeWhile isDigit
        if fds.isEmpty then none
        else finishNumber neg intDigits fds (r.dropWhile isDigit)
      | _ => finishNumber neg intDigits [] cs2

mutual

def parseJsonValue : Nat → List Char → Option (Json × List Char)
  | 0, _ => none
  | Nat.succ fuel, cs =>
    match skipWs cs with
    | 'n' :: 'u' :: 'l' :: 'l' :: r => some (Json.null, r)
    | 't' :: 'r' :: 'u' :: 'e' :: r => some (Json.bool true, r)
    | 'f' :: 'a' :: 'l' :: 's' :: 'e' :: r => some (Json.bool false, r)
    | '"' :: r =>
      match parseJsonStringAux [] r with
      | some (chars, r2) => some (Json.str (String.mk chars), r2)
      | none => none
    | '[' :: r =>
      match skipWs r with
      | ']' :: r2 => some (Json.arr [], r2)
      | _ => parseJsonArrayItems fuel r []
    | '{' :: r =>
      match skipWs r with
      | '}' :: r2 => some (Json.obj [], r2)
      | _ => parseJsonObjectMembers fuel r []
    | r =>
      match parseJsonNumber r with
      | some (q, r2) => some (Json.num q, r2)
      | none => none

def parseJsonArrayItems : Nat → List Char → List Json → Option (Json × List Char)
  | 0, _, _ => none
  | Nat.succ fuel, cs, acc =>
    match parseJsonValue fuel cs with
    | none => none
    | some (v, r) =>
      match skipWs r with
      | ',' :: r2 => parseJsonArrayItems fuel r2 (v :: acc)
      | ']' :: r2 => some (Json.arr (v :: acc).reverse, r2)
      | _ => none

def parseJsonObjectMembers : Nat → List Char → List (String × Json) → Option (Json × List Char)
  | 0, _, _ => none
  | Nat.succ fuel, cs, acc =>
    match skipWs cs with
    | '"' :: r =>
      match parseJsonStringAux [] r with
      | none => none
      | some (key, r2) =>
        match skipWs r2 with
        | ':' :: r3 =>
          match parseJsonValue fuel r3 with
          | none => none
          | some (v, r4) =>
            match skipWs r4 with
            | ',' :: r5 => parseJsonObjectMembers fuel r5 ((String.mk key, v) :: acc)
            | '}' :: r5 => some (Json.obj ((String.mk key, v) :: acc).reverse, r5)
            | _ => none
        | _ => none
    | _ => none

end

def parseJson (s : String) : Option Json :=
  match parseJsonValue (s.length * 2 + 4) s.data with
  | some (v, rest) => if (skipWs rest).isEmpty then some v else none
  | none => none

def jsGetField (j : Json) (key : String) : Option Json :=
  match j with
  | Json.obj fields => (fields.reverse.find? (fun kv => kv.1 == key)).map (fun kv => kv.2)
  | _ => none

def jsTruthy : Json → Bool
  | Json.null => false
  | Json.bool b => b
  | Json.num q => !(q == 0)
  | Json.str s => !(s == "")
  | Json.arr _ => true
  | Json.obj _ => true

def extractJsonBlock (s : String) : Option String :=
  match s.data.findIdx? (fun c => c = '{'), s.data.reverse.findIdx? (fun c => c = '}') with
  | some i, some jr =>
    let j := s.data.length - 1 - jr
    if i < j then some (String.mk ((s.data.drop i).take (j - i + 1))) else none
  | _, _ => none

def validSegments : List String :=
  ["VIP_CUSTOMER", "REGULAR_CUSTOMER", "POTENTIAL_CUSTOMER",
   "SUPPORT_SEEKER", "PRICE_SENSITIVE", "INACTIVE_CUSTOMER", "NEW_CUSTOMER"]

structure SegmentationResult where
  segment : String
  confidence : Rat
  reasoning : Json
  characteristics : List Json
  deriving Repr

def fallbackSegmentationResult : SegmentationResult :=
  { segment := "REGULAR_CUSTOMER", confidence := 0.5
    reasoning := Json.str "Failed to parse LLM response, assigned default segment"
    characteristics := [Json.str "parsing_error"] }

def parseSegmentationResponse (response : String) : SegmentationResult :=
  match extractJsonBlock response with
  | none => fallbackSegmentationResult
  | some block =>
    match parseJson block with
    | none => fallbackSegmentationResult
    | some parsed =>
      match jsGetField parsed "segment" with
      | some (Json.str seg) =>
        if seg ∈ validSegments then
          match jsGetField parsed "confidence" with
          | some (Json.num conf) =>
            if conf < 0 ∨ 1 < conf then fallbackSegmentationResult
            else
              { segment := seg, confidence := conf
                reasoning := match jsGetField parsed "reasoning" with
                  | some v => if jsTruthy v then v else Json.str "No reasoning provided"
                  | none => Json.str "No reasoning provided"
                characteristics := match jsGetField parsed "characteristics" with
                  | some (Json.arr a) => a
                  | _ => [] }
          | _ => fallbackSegmentationResult
        else fallbackSegmentationResult
      | _ => fallbackSegmentationResult

/-- The success condition of `parseSegmentationResponse`'s try block: a
JSON object can be extracted from the response (greedy brace block, then
`JSON.parse`) carrying a `segment` that is a string among the seven valid
labels and a numeric `confidence` that does not fail the
`confidence < 0 || confidence > 1` check.  Exactly when this fails, the
code's catch clause returns the fixed fallback. -/
def extractsValidSegmentation (response : String) : Prop :=
  ∃ (parsed : Json) (seg : String) (conf : ℚ),
    (extractJsonBlock response).bind parseJson = some parsed ∧
    jsGetField parsed "segment" = some (Json.str seg) ∧
    seg ∈ validSegments ∧
    jsGetField parsed "confidence" = some (Json.num conf) ∧
    ¬ (conf < 0 ∨ 1 < conf)

/-- C4: `parseSegmentationResponse` raises nothing and, on *every*
response string from which no JSON object with a valid segment and a
confidence in range can be extracted (`¬ extractsValidSegmentation`, and
in particular the brace-free `"not valid json"`), returns exactly the
fixed fallback result — REGULAR_CUSTOMER, confidence 0.5, the fixed
fallback rationale, characteristics marking a parse error; moreover on
*every* response string whatsoever the returned segment is one of the
seven labels and the returned confidence lies in [0, 1]. -/
theorem C4_parse_segmentation_fallback_and_validity :
    parseSegmentationResponse "not valid json" = fallbackSegmentationResult ∧
    fallbackSegmentationResult.segment = "REGULAR_CUSTOMER" ∧
    fallbackSegmentationResult.confidence = 0.5 ∧
    fallbackSegmentationResult.reasoning =
      Json.str "Failed to parse LLM response, assigned default segment" ∧
    fallbackSegmentationResult.characteristics = [Json.str "parsing_error"] ∧
    (∀ response : String, ¬ extractsValidSegmentation response →
      parseSegmentationResponse response = fallbackSegmentationResult) ∧
    ∀ response : String,
      (parseSegmentationResponse response).segment ∈ validSegments ∧
      0 ≤ (parseSegmentationResponse response).confidence ∧
      (parseSegmentationResponse response).confidence ≤ 1 := by
  have hfb : fallbackSegmentationResult.segment ∈ validSegments ∧
      0 ≤ fallbackSegmentationResult.confidence ∧
      fallbackSegmentationResult.confidence ≤ 1 := by
    refine ⟨by simp [fallbackSegmentationResult, validSegments], ?_, ?_⟩ <;>
      norm_num [fallbackSegmentationResult]
  refine ⟨rfl, rfl, rfl, rfl, rfl, ?_, ?_⟩
  · intro response hno
    unfold parseSegmentationResponse
    split
    · rfl
    next block hblock =>
      split
      · rfl
      next parsed hparsed =>
        split
        case _ seg hseg0 =>
          split
          case isTrue hmem =>
            split
            case _ conf hconf0 =>
              split
              case isTrue => rfl
              case isFalse hrange =>
                exact absurd ⟨parsed, seg, conf,
                  by rw [hblock]; simpa using hparsed, hseg0, hmem, hconf0, hrange⟩ hno
            all_goals rfl
          case isFalse => rfl
        all_goals rfl
  · intro response
    unfold parseSegmentationResponse
    split
    · exact hfb
    split
    · exact hfb
    split
    case _ seg =>
      split
      case isTrue hseg =>
        split
        case _ conf =>
          split
          case isTrue => exact hfb
          case isFalse hconf =>
            push_neg at hconf
            exact ⟨hseg, hconf.1, hconf.2⟩
        all_goals exact hfb
      case isFalse => exact hfb
    all_goals exact hfb

/-- Witness for C4: `"totally invalid"` contains no brace, so no valid
JSON segmentation is extractable from it, and the theorem yields the
exact fallback result there. -/
theorem C4_parse_segmentation_fallback_and_validity_witness :
    (¬ extractsValidSegmentation "totally invalid") ∧
    parseSegmentationResponse "totally invalid" = fallbackSegmentationResult := by
  have hno : ¬ extractsValidSegmentation "totally invalid" := by
    rintro ⟨p, s, c, h, -⟩
    rw [show (extractJsonBlock "totally invalid").bind parseJson = none from rfl] at h
    cases h
  exact ⟨hno,
    C4_parse_segmentation_fallback_and_validity.2.2.2.2.2.1 "totally invalid" hno⟩

/-! ## C7: the manual segmentation endpoint
(`WebhookController.segmentCustomer`) -/

/-- Helper for `jsNumber`: finish after mantissa digits, allowing a JS
exponent sufffix; the whole remainder must be consumed. -/
def jsNumberFinish (neg : Bool) (intDs fds : List Char) (rest : List Char) : Option ℚ :=
  match parseExponent rest with
  | none => none
  | some (e, rest2) =>
    if rest2.isEmpty then
      let mantissa : ℚ :=
        (natOfDigits intDs : ℚ) + (natOfDigits fds : ℚ) / (10 : ℚ) ^ fds.length
      some (applyExp (if neg then -mantissa else mantissa) e)
    else none

/-- JS `Number(s)` on a string: trim whitespace; the empty string is 0;
otherwise an optional sign, decimal digits with optional fraction and
exponent.  `none` stands for `NaN` (non-numeric input such as `"abc"`;
hex/binary literals and `Infinity`, which would equally fail the integer
parameter bind below, are folded into `none` as well). -/
def jsNumber (s : String) : Option ℚ :=
  let t := ((s.data.dropWhile isJsonWs).reverse.dropWhile isJsonWs).reverse
  if t.isEmpty then some 0
  else
    match (match t with
      | '-' :: r => (true, r)
      | '+' :: r => (false, r)
      | _ => (false, t)) with
    | (neg, t1) =>
      let intDs := t1.takeWhile isDigit
      let t2 := t1.dropWhile isDigit
      match t2 with
      | '.' :: r =>
        let fds := r.takeWhile isDigit
        if intDs.isEmpty && fds.isEmpty then none
        else jsNumberFinish neg intDs fds (r.dropWhile isDigit)
      | _ =>
        if intDs.isEmpty then none
        else jsNumberFinish neg intDs [] t2

/-- `updateCustomerSegment`: `UPDATE customers SET segment = $1,
segment_updated_at = NOW() WHERE id = $2`. -/
def updateCustomerSegment (now : Int) (customerId : Nat) (segment : String)
    (s : DbState) : DbState :=
  { s with customers := s.customers.map (fun c =>
      if c.id == customerId then
        { c with segment := some segment, segment_updated_at := some now }
      else c) }

/-- `LLMService.segmentCustomer`: fetch the conversation digest (queries
counted by `getCustomerConversationHistory`), call the external classifier
(whose raw text reply is the `llmResponse` parameter), parse it (total,
never raises), persist the label (one more storage write).  Any digest
failure propagates as a service error.  Returns (storage queries issued,
outcome, resulting state). -/
def segmentCustomer (now : Int) (llmResponse : String) (customerId : Option ℚ)
    (s : DbState) : Nat × Except String SegmentationResult × DbState :=
  match getCustomerConversationHistory now customerId s with
  | (q, Except.error e) => (q, Except.error e, s)
  | (q, Except.ok digest) =>
    let result := parseSegmentationResponse llmResponse
    (q + 1, Except.ok result,
      updateCustomerSegment now digest.customerId result.segment s)

/-- HTTP outcome of the handler, with the number of queries that reached
storage. -/
structure HandlerResponse where
  status : Nat
  storageQueries : Nat
  deriving Repr, DecidableEq

/-- `WebhookController.segmentCustomer`: the `customerId` path parameter
is bound through `z.object({ customerId: z.string().transform(Number)
}).parse(req.params)`.  Path parameters are always strings and
`.transform(Number)` never registers an issue, so this parse cannot throw
a `ZodError` — the 400 "Invalid customer ID" branch is unreachable; a
non-numeric id becomes `NaN` and flows into `llmService.segmentCustomer`,
whose failure lands in the generic 500 branch. -/
def segmentCustomerHandler (customerIdParam llmResponse : String) (now : Int)
    (s : DbState) : HandlerResponse × DbState :=
  match segmentCustomer now llmResponse (jsNumber customerIdParam) s with
  | (q, Except.ok _, s2) => ({ status := 200, storageQueries := q }, s2)
  | (q, Except.error _, s2) => ({ status := 500, storageQueries := q }, s2)

/-- C7: `POST /api/segmentation/customer/abc` does *not* return 400 and
does *not* leave storage untouched: `"abc"` survives the zod parse as
`NaN`, the handler calls into the service, the first customer query is
issued against storage (where the `NaN` parameter fails the integer bind),
and the response is a 500 — for every database state and classifier
reply.  This theorem evaluates the code at the claim's failing input. -/
theorem C7_non_numeric_id_reaches_storage_with_500 (llmResponse : String)
    (now : Int) (s : DbState) :
    segmentCustomerHandler "abc" llmResponse now s =
      ({ status := 500, storageQueries := 1 }, s) := rfl

end Waha
